import Mathlib

/-!
Verification of the `kida_ml_workshop` notebooks.

The repository holds three educational notebooks:
* a RAG demo (PDF loader → text splitter → embeddings → Milvus vector
  store → similarity search → prompt → hosted LLM),
* a convolutional autoencoder trained on CIFAR10 with PyTorch,
* an introductory scikit-learn walkthrough (train/test split, fit,
  predict, score, grid search, pickling).

Each notebook is a linear script of library calls.  We embed the parts
the claims speak about:
* a statement-level dataflow model (which variables each statement of a
  notebook reads and writes, and which pipeline stage it performs),
* the `os.environ` assignment of the RAG notebook's first cell,
* the sequence of Milvus operations and the records built for insertion,
* the `train` and `test_image_reconstruction` functions of the
  autoencoder notebook (machine floats are modelled by `ℚ`; a Python
  exception, e.g. `ZeroDivisionError`, is modelled by `Option`),
* the call sites of all three notebooks together with any `timeout`
  keyword argument they pass,
* a statement AST of all three notebooks with a small exception
  semantics, to settle the error-handling claim,
* the pickle round trip of the scikit-learn notebook.
-/

namespace KidaML

/-! ## A dataflow model of notebook statements

A `Cell` is one executable statement (or statement group) of a notebook:
the variables it reads (`uses`), the variables or files it creates or
assigns (`defines`), and the pipeline stages it performs (`stages`,
usually empty or a singleton).  Statements appear in source order. -/

structure Cell where
  label : String
  stages : List String
  uses : List String
  defines : List String
deriving DecidableEq

/-- All stage tags of a statement list, in execution order. -/
def allStages : List Cell → List String
  | [] => []
  | c :: rest => c.stages ++ allStages rest

/-- `noForwardReads env cells` holds when every statement reads only
names already defined: by the ambient environment `env` or by an earlier
statement of the list.  This is the formal content of "no stage reads a
value produced by a later stage". -/
def noForwardReads : List String → List Cell → Bool
  | _, [] => true
  | env, c :: rest =>
      c.uses.all (fun v => env.contains v) && noForwardReads (env ++ c.defines) rest

/-! ## Notebook 1 (RAG): the statements in source order

Transcribed statement by statement from the RAG notebook.  A cell with
several statements is split so that every entry's reads happen after the
writes it depends on, exactly as in the source.  The search cell is
split into the evaluation of its argument `emb_text(question)` (Python
evaluates arguments before the call) and the `milvus_client.search`
call itself. -/

def ragCells : List Cell :=
  [ ⟨"import os", [], [], ["os"]⟩,
    ⟨"os.environ assignment of HF_TOKEN to the empty string", [], ["os"], ["HF_TOKEN"]⟩,
    ⟨"bash cell: wget The-AI-Act.pdf unless present", [], [], ["file:The-AI-Act.pdf"]⟩,
    ⟨"import PyPDFLoader", [], [], ["PyPDFLoader"]⟩,
    ⟨"loader = PyPDFLoader(The-AI-Act.pdf)", [], ["PyPDFLoader", "file:The-AI-Act.pdf"], ["loader"]⟩,
    ⟨"docs = loader.load()", ["loadPdf"], ["loader"], ["docs"]⟩,
    ⟨"print(len(docs))", [], ["docs"], []⟩,
    ⟨"import RecursiveCharacterTextSplitter", [], [], ["RecursiveCharacterTextSplitter"]⟩,
    ⟨"text_splitter = RecursiveCharacterTextSplitter(chunk_size 1000, chunk_overlap 200)", [],
      ["RecursiveCharacterTextSplitter"], ["text_splitter"]⟩,
    ⟨"chunks = text_splitter.split_documents(docs)", ["splitText"], ["text_splitter", "docs"], ["chunks"]⟩,
    ⟨"text_lines = page_content of each chunk", [], ["chunks"], ["text_lines"]⟩,
    ⟨"import SentenceTransformer", [], [], ["SentenceTransformer"]⟩,
    ⟨"embedding_model = SentenceTransformer(BAAI bge-small-en-v1.5)", [],
      ["SentenceTransformer"], ["embedding_model"]⟩,
    ⟨"def emb_text(text)", [], [], ["emb_text"]⟩,
    ⟨"test_embedding = emb_text(This is a fish)", [], ["emb_text", "embedding_model"], ["test_embedding"]⟩,
    ⟨"embedding_dim = len(test_embedding)", [], ["test_embedding"], ["embedding_dim"]⟩,
    ⟨"print(embedding_dim); print(test_embedding[:10])", [], ["embedding_dim", "test_embedding"], []⟩,
    ⟨"import MilvusClient", [], [], ["MilvusClient"]⟩,
    ⟨"milvus_client = MilvusClient(uri ./hf_milvus_demo.db)", [], ["MilvusClient"], ["milvus_client"]⟩,
    ⟨"collection_name = rag_collection", [], [], ["collection_name"]⟩,
    ⟨"if has_collection then drop_collection", [], ["milvus_client", "collection_name"], []⟩,
    ⟨"milvus_client.create_collection(collection_name, embedding_dim, IP, Strong)", [],
      ["milvus_client", "collection_name", "embedding_dim"], []⟩,
    ⟨"import tqdm", [], [], ["tqdm"]⟩,
    ⟨"data = []", [], [], ["data"]⟩,
    ⟨"for i, line in enumerate(tqdm(text_lines)): append id vector text record", ["embedChunks"],
      ["text_lines", "tqdm", "emb_text", "embedding_model", "data"], []⟩,
    ⟨"insert_res = milvus_client.insert(collection_name, data)", ["insertChunks"],
      ["milvus_client", "collection_name", "data"], ["insert_res"]⟩,
    ⟨"insert_res[insert_count]", [], ["insert_res"], []⟩,
    ⟨"question = What are forbidden AI applications?", [], [], ["question"]⟩,
    ⟨"emb_text(question), the search argument", ["embedQuery"],
      ["emb_text", "embedding_model", "question"], ["query_vector"]⟩,
    ⟨"search_res = milvus_client.search(collection_name, query_vector, limit 3, IP, output text)",
      ["similaritySearch"], ["milvus_client", "collection_name", "query_vector"], ["search_res"]⟩,
    ⟨"import json", [], [], ["json"]⟩,
    ⟨"retrieved_lines_with_distances from search_res[0]", [], ["search_res"],
      ["retrieved_lines_with_distances"]⟩,
    ⟨"print(json.dumps(retrieved_lines_with_distances))", [],
      ["json", "retrieved_lines_with_distances"], []⟩,
    ⟨"context = newline join of the retrieved lines", ["concatRetrieved"],
      ["retrieved_lines_with_distances"], ["context"]⟩,
    ⟨"PROMPT = template with context and question slots", [], [], ["PROMPT"]⟩,
    ⟨"import InferenceClient", [], [], ["InferenceClient"]⟩,
    ⟨"repo_id = mistralai Mixtral-8x7B-Instruct-v0.1", [], [], ["repo_id"]⟩,
    ⟨"llm_client = InferenceClient(model repo_id, timeout 120)", [],
      ["InferenceClient", "repo_id"], ["llm_client"]⟩,
    ⟨"prompt = PROMPT.format(context, question)", ["formatPrompt"],
      ["PROMPT", "context", "question"], ["prompt"]⟩,
    ⟨"display prompt", [], ["prompt"], []⟩,
    ⟨"answer = llm_client.text_generation(prompt, max_new_tokens 1000).strip()", ["callLLM"],
      ["llm_client", "prompt"], ["answer"]⟩,
    ⟨"print(answer)", [], ["answer"], []⟩ ]

/-! ## Notebook 1: the HF_TOKEN cell

The first code cell of the RAG notebook is
`import os` followed by `os.environ[HF_TOKEN] = ""`: an assignment of
the empty string, not a read.  The `InferenceClient` is constructed with
no token argument, so the token it sees is the value of `HF_TOKEN` in
the process environment after that assignment. -/

def setHfToken (env0 : String → Option String) : String → Option String :=
  fun k => if k = "HF_TOKEN" then some "" else env0 k

/-- The `HF_TOKEN` value visible to the inference client, given the
environment `env0` the notebook started in. -/
def tokenSeenByClient (env0 : String → Option String) : Option String :=
  setHfToken env0 "HF_TOKEN"

/-- A starting environment that carries a non-empty token. -/
def envWithSecret : String → Option String :=
  fun k => if k = "HF_TOKEN" then some "secret-token" else none

/-! ## Notebook 1: Milvus ingestion

The records built by the insertion loop, and the sequence of Milvus
client operations the notebook performs, with a small state semantics of
a Milvus collection. -/

/-- One record of the insertion loop:
`data.append(dict of id i, vector emb_text(line), text line)`. -/
structure RagRecord (E : Type) where
  id : Nat
  vector : E
  text : String
deriving DecidableEq

/-- The list `data` after the loop
`for i, line in enumerate(tqdm(text_lines)): data.append(...)`:
record `i` carries id `i`, the embedding of line `i`, and line `i`. -/
def ragData {E : Type} (emb : String → E) (text_lines : List String) : List (RagRecord E) :=
  text_lines.enum.map fun p => { id := p.1, vector := emb p.2, text := p.2 }

/-- The Milvus client operations the RAG notebook issues, in order. -/
inductive MilvusOp (E : Type) where
  | hasCollectionQ
  | dropCollection
  | createCollection
  | insertData (data : List (RagRecord E))
  | search (query : E) (limit : Nat)
deriving DecidableEq

/-- Whether an operation is the insert. -/
def MilvusOp.isInsert {E : Type} : MilvusOp E → Bool
  | .insertData _ => true
  | _ => false

/-- State of the collection: `none` when it does not exist, otherwise
its records.  `has_collection` and `search` read without writing,
`drop_collection` removes the collection, `create_collection` creates it
empty, `insert` appends the given records. -/
def milvusStep {E : Type} : Option (List (RagRecord E)) → MilvusOp E → Option (List (RagRecord E))
  | s, .hasCollectionQ => s
  | _, .dropCollection => none
  | _, .createCollection => some []
  | s, .insertData d => s.map (· ++ d)
  | s, .search _ _ => s

/-- The operation sequence of the notebook: check `has_collection`,
drop it when it existed, create it, insert `data` once, then search
with `limit=3`.  `existed` is whether `has_collection` returned true. -/
def ragMilvusOps {E : Type} (existed : Bool) (data : List (RagRecord E)) (query : E) :
    List (MilvusOp E) :=
  [MilvusOp.hasCollectionQ]
    ++ (if existed then [MilvusOp.dropCollection] else [])
    ++ [MilvusOp.createCollection, MilvusOp.insertData data, MilvusOp.search query 3]

/-- The operations issued strictly after the insert. -/
def opsAfterInsert {E : Type} (ops : List (MilvusOp E)) : List (MilvusOp E) :=
  (ops.dropWhile fun o => !o.isInsert).tail

/-! ## Notebook 2 (autoencoder): constants and network

From the constants cell and the `AutoEncoder` class.  A tensor type is
abstract (`T`); the four layers are unary maps on it, and `forward`
applies them in source order, each followed by `relu`. -/

/-- `NUM_EPOCHS = 10` from the constants cell. -/
def NUM_EPOCHS : Nat := 10

/-- The kind of a convolutional layer. -/
inductive ConvKind where
  | conv2d
  | convTranspose2d
deriving DecidableEq

/-- Constructor arguments of one layer: `nn.Conv2d(inC, outC, k)` or
`nn.ConvTranspose2d(inC, outC, k)`. -/
structure LayerSpec where
  kind : ConvKind
  inChannels : Nat
  outChannels : Nat
  kernel : Nat
deriving DecidableEq

/-- The layers created in `AutoEncoder.__init__`, in definition order
(enc1, enc2, dec1, dec2). -/
def autoEncoderLayerSpecs : List LayerSpec :=
  [ ⟨ConvKind.conv2d, 3, 8, 3⟩,
    ⟨ConvKind.conv2d, 8, 4, 3⟩,
    ⟨ConvKind.convTranspose2d, 4, 8, 3⟩,
    ⟨ConvKind.convTranspose2d, 8, 3, 3⟩ ]

/-- The `AutoEncoder` module: its four layers as maps on an abstract
tensor type. -/
structure AutoEncoder (T : Type) where
  enc1 : T → T
  enc2 : T → T
  dec1 : T → T
  dec2 : T → T

/-- `forward` from the source:
`relu (dec2 (relu (dec1 (relu (enc2 (relu (enc1 x)))))))`. -/
def AutoEncoder.forward {T : Type} (relu : T → T) (m : AutoEncoder T) (x : T) : T :=
  relu (m.dec2 (relu (m.dec1 (relu (m.enc2 (relu (m.enc1 x)))))))

/-! ## Notebook 2: the train loop

`train(net, trainloader, NUM_EPOCHS)` runs `NUM_EPOCHS` epochs.  Each
epoch folds over the loader: for each batch it computes the loss with
the current parameters and then updates them
(`loss.backward(); optimizer.step()`).  We abstract one batch step as
`step : Net → B → Net × ℚ`, returning the updated parameters (the
optimizer state is part of `Net`) and the value `loss.item()` of that
batch; loss values are modelled by `ℚ`.  After the inner loop the
source computes `running_loss / len(trainloader)`, which raises
`ZeroDivisionError` on an empty loader: the epoch is `none` there. -/

/-- One epoch: the inner `for data in trainloader` loop accumulating
`running_loss`, then the division by `len(trainloader)`. -/
def trainEpoch {Net B : Type} (step : Net → B → Net × ℚ) (net : Net) (loader : List B) :
    Option (Net × ℚ) :=
  if loader.isEmpty then none
  else
    let p := loader.foldl (fun acc b => let r := step acc.1 b; (r.1, acc.2 + r.2)) (net, (0 : ℚ))
    some (p.1, p.2 / (loader.length : ℚ))

/-- `train`: the outer `for epoch in range(NUM_EPOCHS)` loop, returning
the final parameters and the `train_loss` list in epoch order.  A
failing epoch aborts the run. -/
def train {Net B : Type} (step : Net → B → Net × ℚ) (net : Net) (loader : List B) :
    Nat → Option (Net × List ℚ)
  | 0 => some (net, [])
  | n + 1 =>
      match trainEpoch step net loader with
      | none => none
      | some r =>
          match train step r.1 loader n with
          | none => none
          | some s => some (s.1, r.2 :: s.2)

/-- The parameters after one epoch over `loader` (specification-side
recursion; related to the fold inside `trainEpoch` below). -/
def netAfterEpoch {Net B : Type} (step : Net → B → Net × ℚ) : List B → Net → Net
  | [], net => net
  | b :: rest, net => netAfterEpoch step rest (step net b).1

/-- The per-batch loss values produced during one epoch, in batch
order: the loss of each batch is computed with the parameters as they
stand when that batch is processed. -/
def batchLosses {Net B : Type} (step : Net → B → Net × ℚ) : List B → Net → List ℚ
  | [], _ => []
  | b :: rest, net => (step net b).2 :: batchLosses step rest (step net b).1

/-- A concrete batch step used to evaluate the statements above on
explicit inputs: parameters and batches are rationals, the loss of a
batch is `net * b` and the update is `net + b`. -/
def stepW : ℚ → ℚ → ℚ × ℚ := fun net b => (net + b, net * b)

/-! ## Notebook 2: test_image_reconstruction

`for batch in testloader:` moves the batch to the device, runs the
network, reshapes the output and writes it to
`conv_cifar10_reconstruction.png`, then hits an unconditional `break`.
The result records the inputs the network ran on and the files written
(name and content). -/

def test_image_reconstruction {Img : Type} (toDevice net postprocess : Img → Img) :
    List Img → List Img × List (String × Img)
  | [] => ([], [])
  | batch :: _ =>
      let img := toDevice batch
      let outputs := net img
      ([img], [("conv_cifar10_reconstruction.png", postprocess outputs)])

/-! ## Notebook 3 (scikit-learn): the statements in source order

Same dataflow model as for the RAG notebook.  Cells with several
statements are split so that each entry's reads follow the writes they
depend on, as in the source.  `clf.fit(...)` mutates the classifier in
place, so it both uses and (re)defines `clf`. -/

def sklearnCells : List Cell :=
  [ ⟨"imports: matplotlib.pyplot, numpy, pandas, sklearn", [], [], ["plt", "np", "pd", "sklearn"]⟩,
    ⟨"print sklearn version", [], ["sklearn"], []⟩,
    ⟨"import pandas as pd (again)", [], [], ["pd"]⟩,
    ⟨"heart_disease = pd.read_csv(heart-disease.csv url)", ["loadData"], ["pd"], ["heart_disease"]⟩,
    ⟨"heart_disease.head()", [], ["heart_disease"], []⟩,
    ⟨"X = heart_disease.drop(target, axis 1)", [], ["heart_disease"], ["X"]⟩,
    ⟨"y = heart_disease[target]", [], ["heart_disease"], ["y"]⟩,
    ⟨"X.head()", [], ["X"], []⟩,
    ⟨"y.head(), y.value_counts()", [], ["y"], []⟩,
    ⟨"import train_test_split", [], [], ["train_test_split"]⟩,
    ⟨"X_train, X_test, y_train, y_test = train_test_split(X, y, test_size 0.25)", ["splitData"],
      ["train_test_split", "X", "y"], ["X_train", "X_test", "y_train", "y_test"]⟩,
    ⟨"display the four shapes", [], ["X_train", "X_test", "y_train", "y_test"], []⟩,
    ⟨"import RandomForestClassifier", [], [], ["RandomForestClassifier"]⟩,
    ⟨"clf = RandomForestClassifier()", ["instantiateClassifier"], ["RandomForestClassifier"], ["clf"]⟩,
    ⟨"clf.get_params()", [], ["clf"], []⟩,
    ⟨"clf.fit(X_train, y_train)", ["fitClassifier"], ["clf", "X_train", "y_train"], ["clf"]⟩,
    ⟨"X_test.head()", [], ["X_test"], []⟩,
    ⟨"y_preds = clf.predict(X_test)", ["predictTest"], ["clf", "X_test"], ["y_preds"]⟩,
    ⟨"display y_preds", [], ["y_preds"], []⟩,
    ⟨"train_acc = clf.score(X_train, y_train)", [], ["clf", "X_train", "y_train"], ["train_acc"]⟩,
    ⟨"print train accuracy", [], ["train_acc"], []⟩,
    ⟨"test_acc = clf.score(X_test, y_test)", ["scoreTest"], ["clf", "X_test", "y_test"], ["test_acc"]⟩,
    ⟨"print test accuracy", [], ["test_acc"], []⟩,
    ⟨"import classification_report, confusion_matrix, accuracy_score", [], [],
      ["classification_report", "confusion_matrix", "accuracy_score"]⟩,
    ⟨"print(classification_report(y_test, y_preds))", [],
      ["classification_report", "y_test", "y_preds"], []⟩,
    ⟨"conf_mat = confusion_matrix(y_test, y_preds)", [],
      ["confusion_matrix", "y_test", "y_preds"], ["conf_mat"]⟩,
    ⟨"accuracy_score(y_test, y_preds)", [], ["accuracy_score", "y_test", "y_preds"], []⟩,
    ⟨"n_estimators loop without cross-validation", [],
      ["np", "RandomForestClassifier", "X_train", "y_train", "X_test", "y_test"], ["model"]⟩,
    ⟨"import cross_val_score", [], [], ["cross_val_score"]⟩,
    ⟨"n_estimators loop with cross-validation", [],
      ["np", "RandomForestClassifier", "X_train", "y_train", "X_test", "y_test",
       "cross_val_score", "X", "y"],
      ["model", "model_score", "cross_val_mean"]⟩,
    ⟨"np.random.seed(42)", [], ["np"], []⟩,
    ⟨"import GridSearchCV", [], [], ["GridSearchCV"]⟩,
    ⟨"param_grid = dict of n_estimators and max_features ranges", [], [], ["param_grid"]⟩,
    ⟨"grid = GridSearchCV(RandomForestClassifier(), param_grid, cv 5, verbose 1)", [],
      ["GridSearchCV", "RandomForestClassifier", "param_grid"], ["grid"]⟩,
    ⟨"grid.fit(X, y)", ["gridSearch"], ["grid", "X", "y"], ["grid"]⟩,
    ⟨"print best_params_ and best_score_", [], ["grid"], []⟩,
    ⟨"clf = grid.best_estimator_", [], ["grid"], ["clf"]⟩,
    ⟨"display clf", [], ["clf"], []⟩,
    ⟨"clf = clf.fit(X_train, y_train)", [], ["clf", "X_train", "y_train"], ["clf"]⟩,
    ⟨"print clf.score(X_test, y_test)", [], ["clf", "X_test", "y_test"], []⟩,
    ⟨"import pickle", [], [], ["pickle"]⟩,
    ⟨"pickle.dump(grid, open(random_forest_model_1_grid.pkl, wb))", ["pickleModel"],
      ["pickle", "grid"], ["file:random_forest_model_1_grid.pkl"]⟩,
    ⟨"loaded_pickle_model = pickle.load(open(random_forest_model_1_grid.pkl, rb))", [],
      ["pickle", "file:random_forest_model_1_grid.pkl"], ["loaded_pickle_model"]⟩,
    ⟨"print loaded_pickle_model.score(X_test, y_test)", [],
      ["loaded_pickle_model", "X_test", "y_test"], []⟩ ]

/-! ## Notebook 3: the pickle round trip

`pickle.dump(grid, open("random_forest_model_1_grid.pkl", "wb"))` and
later `pickle.load(open("random_forest_model_1_grid.pkl", "rb"))`.  The
disk is a map from path to bytes; pickling is an abstract
encode/decode pair, and the round-trip law `dec (enc m) = m` (what the
pickle library provides for these objects) is a hypothesis. -/

/-- The path the dump cell writes. -/
def dumpPath : String := "random_forest_model_1_grid.pkl"

/-- The path the load cell reads. -/
def loadPath : String := "random_forest_model_1_grid.pkl"

/-- The disk after `pickle.dump(grid, open(dumpPath, "wb"))`. -/
def diskAfterDump {Model Bytes : Type} (enc : Model → Bytes) (grid : Model)
    (disk : String → Option Bytes) : String → Option Bytes :=
  fun p => if p = dumpPath then some (enc grid) else disk p

/-- `loaded_pickle_model = pickle.load(open(loadPath, "rb"))`: `none`
models the `FileNotFoundError` of a missing file. -/
def loadedPickleModel {Model Bytes : Type} (dec : Bytes → Model)
    (disk : String → Option Bytes) : Option Model :=
  (disk loadPath).map dec

/-! ## Call sites of the three notebooks

Every function or method call written in repository code, in source
order, with the `timeout` keyword argument it passes (if any).  Calls
inside function bodies are listed where the body stands.  No call in
any notebook passes a `timeout` except the `InferenceClient`
constructor, and none is a cancellation primitive. -/

structure CallSite where
  notebook : String
  callee : String
  timeoutArg : Option Nat
deriving DecidableEq

/-- A call site with no `timeout` argument. -/
def call (nb fn : String) : CallSite := ⟨nb, fn, none⟩

def ragCallSites : List CallSite :=
  [ call "rag" "PyPDFLoader",
    call "rag" "loader.load",
    call "rag" "len",
    call "rag" "print",
    call "rag" "RecursiveCharacterTextSplitter",
    call "rag" "text_splitter.split_documents",
    call "rag" "SentenceTransformer",
    call "rag" "embedding_model.encode",
    call "rag" "ndarray.tolist",
    call "rag" "emb_text",
    call "rag" "len",
    call "rag" "print",
    call "rag" "print",
    call "rag" "MilvusClient",
    call "rag" "milvus_client.has_collection",
    call "rag" "milvus_client.drop_collection",
    call "rag" "milvus_client.create_collection",
    call "rag" "tqdm",
    call "rag" "enumerate",
    call "rag" "emb_text",
    call "rag" "data.append",
    call "rag" "milvus_client.insert",
    call "rag" "emb_text",
    call "rag" "milvus_client.search",
    call "rag" "json.dumps",
    call "rag" "print",
    call "rag" "str.join",
    ⟨"rag", "InferenceClient", some 120⟩,
    call "rag" "PROMPT.format",
    call "rag" "llm_client.text_generation",
    call "rag" "str.strip",
    call "rag" "print" ]

def autoencoderCallSites : List CallSite :=
  [ call "autoencoder" "transforms.Compose",
    call "autoencoder" "transforms.ToTensor",
    call "autoencoder" "transforms.Normalize",
    call "autoencoder" "dsets.CIFAR10",
    call "autoencoder" "dsets.CIFAR10",
    call "autoencoder" "torch.utils.data.DataLoader",
    call "autoencoder" "torch.utils.data.DataLoader",
    call "autoencoder" "torch.cuda.is_available",
    call "autoencoder" "torch.device",
    call "autoencoder" "os.path.exists",
    call "autoencoder" "os.mkdir",
    call "autoencoder" "img.view",
    call "autoencoder" "img.size",
    call "autoencoder" "save_image",
    call "autoencoder" "super.init",
    call "autoencoder" "nn.Conv2d",
    call "autoencoder" "nn.Conv2d",
    call "autoencoder" "nn.ConvTranspose2d",
    call "autoencoder" "nn.ConvTranspose2d",
    call "autoencoder" "F.relu",
    call "autoencoder" "F.relu",
    call "autoencoder" "F.relu",
    call "autoencoder" "F.relu",
    call "autoencoder" "AutoEncoder",
    call "autoencoder" "module.to",
    call "autoencoder" "print",
    call "autoencoder" "nn.MSELoss",
    call "autoencoder" "optim.Adam",
    call "autoencoder" "model.parameters",
    call "autoencoder" "range",
    call "autoencoder" "time.time",
    call "autoencoder" "img.to",
    call "autoencoder" "optimizer.zero_grad",
    call "autoencoder" "net",
    call "autoencoder" "criterion",
    call "autoencoder" "loss.backward",
    call "autoencoder" "optimizer.step",
    call "autoencoder" "loss.item",
    call "autoencoder" "len",
    call "autoencoder" "train_loss.append",
    call "autoencoder" "time.time",
    call "autoencoder" "print",
    call "autoencoder" "str.format",
    call "autoencoder" "save_decoded_image",
    call "autoencoder" "tensor.cpu",
    call "autoencoder" "save_decoded_image",
    call "autoencoder" "tensor.cpu",
    call "autoencoder" "img.to",
    call "autoencoder" "net",
    call "autoencoder" "outputs.view",
    call "autoencoder" "outputs.size",
    call "autoencoder" "tensor.cpu",
    call "autoencoder" "save_image",
    call "autoencoder" "model.to",
    call "autoencoder" "make_dir",
    call "autoencoder" "train",
    call "autoencoder" "plt.figure",
    call "autoencoder" "plt.plot",
    call "autoencoder" "plt.title",
    call "autoencoder" "plt.xlabel",
    call "autoencoder" "plt.ylabel",
    call "autoencoder" "plt.savefig",
    call "autoencoder" "test_image_reconstruction",
    call "autoencoder" "plt.figure",
    call "autoencoder" "mpimg.imread",
    call "autoencoder" "plt.imshow",
    call "autoencoder" "plt.show" ]

def sklearnCallSites : List CallSite :=
  [ call "sklearn" "print",
    call "sklearn" "pd.read_csv",
    call "sklearn" "heart_disease.head",
    call "sklearn" "heart_disease.drop",
    call "sklearn" "X.head",
    call "sklearn" "y.head",
    call "sklearn" "y.value_counts",
    call "sklearn" "train_test_split",
    call "sklearn" "RandomForestClassifier",
    call "sklearn" "clf.get_params",
    call "sklearn" "clf.fit",
    call "sklearn" "X_test.head",
    call "sklearn" "clf.predict",
    call "sklearn" "clf.score",
    call "sklearn" "print",
    call "sklearn" "clf.score",
    call "sklearn" "print",
    call "sklearn" "classification_report",
    call "sklearn" "print",
    call "sklearn" "confusion_matrix",
    call "sklearn" "accuracy_score",
    call "sklearn" "np.random.seed",
    call "sklearn" "range",
    call "sklearn" "print",
    call "sklearn" "RandomForestClassifier",
    call "sklearn" "model.fit",
    call "sklearn" "model.score",
    call "sklearn" "print",
    call "sklearn" "print",
    call "sklearn" "np.random.seed",
    call "sklearn" "range",
    call "sklearn" "print",
    call "sklearn" "RandomForestClassifier",
    call "sklearn" "model.fit",
    call "sklearn" "model.score",
    call "sklearn" "print",
    call "sklearn" "np.mean",
    call "sklearn" "cross_val_score",
    call "sklearn" "print",
    call "sklearn" "print",
    call "sklearn" "np.random.seed",
    call "sklearn" "range",
    call "sklearn" "range",
    call "sklearn" "RandomForestClassifier",
    call "sklearn" "GridSearchCV",
    call "sklearn" "grid.fit",
    call "sklearn" "print",
    call "sklearn" "print",
    call "sklearn" "clf.fit",
    call "sklearn" "clf.score",
    call "sklearn" "print",
    call "sklearn" "pickle.dump",
    call "sklearn" "open",
    call "sklearn" "pickle.load",
    call "sklearn" "open",
    call "sklearn" "loaded_pickle_model.score",
    call "sklearn" "print" ]

/-- All repository call sites, in notebook order. -/
def allCallSites : List CallSite :=
  ragCallSites ++ autoencoderCallSites ++ sklearnCallSites

/-- Names of cancellation primitives; no notebook call is one. -/
def cancelPrimitives : List String :=
  ["cancel", "abort", "terminate", "kill", "interrupt", "stop"]

/-! ## A statement AST of the notebooks, for the error-handling claim

`Py` is the statement language the three notebooks use: simple
statements (assignments, expression statements, imports — each can
raise), `for` and `while` loops, `if`, function and class definitions,
`try`/`except`, and `break`.  The transcriptions below contain every
statement of the three notebooks; none of them is a `tryStmt` or a
`whileLoop`. -/

inductive Py where
  | stmt (desc : String)
  | forLoop (desc : String) (body : List Py)
  | whileLoop (desc : String) (body : List Py)
  | ifStmt (cond : String) (thenBody elseBody : List Py)
  | funcDef (name : String) (body : List Py)
  | classDef (name : String) (body : List Py)
  | tryStmt (body handlers : List Py)
  | breakStmt

mutual

/-- No `try`/`except` anywhere in the statement, bodies included. -/
def handlerFree : Py → Bool
  | Py.stmt _ => true
  | Py.forLoop _ b => handlerFreeList b
  | Py.whileLoop _ b => handlerFreeList b
  | Py.ifStmt _ t e => handlerFreeList t && handlerFreeList e
  | Py.funcDef _ b => handlerFreeList b
  | Py.classDef _ b => handlerFreeList b
  | Py.tryStmt _ _ => false
  | Py.breakStmt => true

def handlerFreeList : List Py → Bool
  | [] => true
  | p :: ps => handlerFree p && handlerFreeList ps

end

mutual

/-- No `while` loop anywhere in the statement (every loop in the
notebooks iterates over a fixed collection; there is no retry loop). -/
def whileFree : Py → Bool
  | Py.stmt _ => true
  | Py.forLoop _ b => whileFreeList b
  | Py.whileLoop _ _ => false
  | Py.ifStmt _ t e => whileFreeList t && whileFreeList e
  | Py.funcDef _ b => whileFreeList b
  | Py.classDef _ b => whileFreeList b
  | Py.tryStmt b h => whileFreeList b && whileFreeList h
  | Py.breakStmt => true

def whileFreeList : List Py → Bool
  | [] => true
  | p :: ps => whileFree p && whileFreeList ps

end

/-- Control signal of a statement: fell through, or hit `break`. -/
inductive Sig where
  | norm
  | brk
deriving DecidableEq

/-- Resolves the data-dependent control flow when running a `Py`
program: how many iterations each loop makes and which branch each
`if` takes. -/
structure Oracle where
  iters : String → Nat
  takeBranch : String → Bool

mutual

/-- Run one statement.  `f` is the behaviour of the underlying
libraries: what each simple statement does, `Except.error e` when it
raises `e`.  Defining a function or class raises nothing (its body runs
at call sites, which are simple statements of the transcription); the
only construct that stops an error is `tryStmt`. -/
def execPy (f : String → Except String Unit) (o : Oracle) : Py → Except String Sig
  | Py.stmt d =>
      match f d with
      | Except.ok _ => Except.ok Sig.norm
      | Except.error e => Except.error e
  | Py.forLoop d body => execLoop f o body (o.iters d)
  | Py.whileLoop d body => execLoop f o body (o.iters d)
  | Py.ifStmt c t e => if o.takeBranch c then execSeq f o t else execSeq f o e
  | Py.funcDef _ _ => Except.ok Sig.norm
  | Py.classDef _ _ => Except.ok Sig.norm
  | Py.tryStmt body handlers =>
      match execSeq f o body with
      | Except.error _ => execSeq f o handlers
      | Except.ok s => Except.ok s
  | Py.breakStmt => Except.ok Sig.brk
termination_by p => (sizeOf p, 0)

/-- Run statements in order; an error aborts the rest, `break`
propagates to the enclosing loop. -/
def execSeq (f : String → Except String Unit) (o : Oracle) : List Py → Except String Sig
  | [] => Except.ok Sig.norm
  | p :: ps =>
      match execPy f o p with
      | Except.ok Sig.norm => execSeq f o ps
      | Except.ok Sig.brk => Except.ok Sig.brk
      | Except.error e => Except.error e
termination_by l => (sizeOf l, 0)

/-- Run a loop body the given number of times; `break` leaves the
loop, an error aborts it. -/
def execLoop (f : String → Except String Unit) (o : Oracle) (body : List Py) :
    Nat → Except String Sig
  | 0 => Except.ok Sig.norm
  | n + 1 =>
      match execSeq f o body with
      | Except.ok Sig.norm => execLoop f o body n
      | Except.ok Sig.brk => Except.ok Sig.norm
      | Except.error e => Except.error e
termination_by n => (sizeOf body, n + 1)

end

/-! ### The three notebooks as `Py` programs, statement for statement -/

def ragProgram : List Py :=
  [ Py.stmt "import os",
    Py.stmt "os.environ[HF_TOKEN] = empty string",
    Py.ifStmt "The-AI-Act.pdf not present"
      [Py.stmt "wget The-AI-Act.pdf"] [],
    Py.stmt "from langchain_community.document_loaders import PyPDFLoader",
    Py.stmt "loader = PyPDFLoader(The-AI-Act.pdf)",
    Py.stmt "docs = loader.load()",
    Py.stmt "print(len(docs))",
    Py.stmt "from langchain_text_splitters import RecursiveCharacterTextSplitter",
    Py.stmt "text_splitter = RecursiveCharacterTextSplitter(chunk_size 1000, chunk_overlap 200)",
    Py.stmt "chunks = text_splitter.split_documents(docs)",
    Py.stmt "text_lines = comprehension of chunk.page_content",
    Py.stmt "from sentence_transformers import SentenceTransformer",
    Py.stmt "embedding_model = SentenceTransformer(BAAI/bge-small-en-v1.5)",
    Py.funcDef "emb_text"
      [Py.stmt "return embedding_model.encode([text], normalize_embeddings True).tolist()[0]"],
    Py.stmt "test_embedding = emb_text(This is a fish)",
    Py.stmt "embedding_dim = len(test_embedding)",
    Py.stmt "print(embedding_dim)",
    Py.stmt "print(test_embedding[:10])",
    Py.stmt "from pymilvus import MilvusClient",
    Py.stmt "milvus_client = MilvusClient(uri ./hf_milvus_demo.db)",
    Py.stmt "collection_name = rag_collection",
    Py.ifStmt "milvus_client.has_collection(collection_name)"
      [Py.stmt "milvus_client.drop_collection(collection_name)"] [],
    Py.stmt "milvus_client.create_collection(collection_name, embedding_dim, IP, Strong)",
    Py.stmt "from tqdm import tqdm",
    Py.stmt "data = []",
    Py.forLoop "for i, line in enumerate(tqdm(text_lines))"
      [Py.stmt "data.append(record of id, vector, text)"],
    Py.stmt "insert_res = milvus_client.insert(collection_name, data)",
    Py.stmt "insert_res[insert_count]",
    Py.stmt "question = What are forbidden AI applications?",
    Py.stmt "search_res = milvus_client.search(collection_name, [emb_text(question)], limit 3)",
    Py.stmt "import json",
    Py.stmt "retrieved_lines_with_distances = comprehension over search_res[0]",
    Py.stmt "print(json.dumps(retrieved_lines_with_distances, indent 4))",
    Py.stmt "context = newline.join(retrieved lines)",
    Py.stmt "PROMPT = template string",
    Py.stmt "from huggingface_hub import InferenceClient",
    Py.stmt "repo_id = mistralai/Mixtral-8x7B-Instruct-v0.1",
    Py.stmt "llm_client = InferenceClient(model repo_id, timeout 120)",
    Py.stmt "prompt = PROMPT.format(context, question)",
    Py.stmt "prompt",
    Py.stmt "answer = llm_client.text_generation(prompt, max_new_tokens 1000).strip()",
    Py.stmt "print(answer)" ]

def autoencoderProgram : List Py :=
  [ Py.stmt "import torch, torch.nn, torch.nn.functional, torch.optim",
    Py.stmt "import torchvision transforms, save_image, datasets, torchsummary",
    Py.stmt "import os, time, numpy, matplotlib.pyplot",
    Py.stmt "NUM_EPOCHS = 10",
    Py.stmt "LEANRING_RATE = 0.001",
    Py.stmt "BATCH_SIZE = 128",
    Py.stmt "transforms = transforms.Compose(ToTensor, Normalize)",
    Py.stmt "trainset = dsets.CIFAR10(train True, download True, transform transforms)",
    Py.stmt "testset = dsets.CIFAR10(train False, download True, transform transforms)",
    Py.stmt "trainLoader = DataLoader(trainset, BATCH_SIZE, shuffle True, num_workers 2)",
    Py.stmt "testLoader = DataLoader(testset, BATCH_SIZE, shuffle False, num_workers 2)",
    Py.stmt "device = torch.device(cuda if available else cpu)",
    Py.funcDef "make_dir"
      [ Py.stmt "image_dir = ./image_cifar10/",
        Py.ifStmt "not os.path.exists(image_dir)" [Py.stmt "os.mkdir(image_dir)"] [] ],
    Py.funcDef "save_decoded_image"
      [ Py.stmt "img = img.view(img.size(0), 3, 32, 32)",
        Py.stmt "save_image(img, ./image_cifar10/ + name + .png)" ],
    Py.classDef "AutoEncoder"
      [ Py.funcDef "__init__"
          [ Py.stmt "super init",
            Py.stmt "self.enc1 = nn.Conv2d(3, 8, 3)",
            Py.stmt "self.enc2 = nn.Conv2d(8, 4, 3)",
            Py.stmt "self.dec1 = nn.ConvTranspose2d(4, 8, 3)",
            Py.stmt "self.dec2 = nn.ConvTranspose2d(8, 3, 3)" ],
        Py.funcDef "forward"
          [ Py.stmt "x = F.relu(self.enc1(x))",
            Py.stmt "x = F.relu(self.enc2(x))",
            Py.stmt "x = F.relu(self.dec1(x))",
            Py.stmt "x = F.relu(self.dec2(x))",
            Py.stmt "return x" ] ],
    Py.stmt "model = AutoEncoder().to(device)",
    Py.stmt "print(model)",
    Py.stmt "criterion = nn.MSELoss()",
    Py.stmt "optimizer = optim.Adam(model.parameters(), lr LEANRING_RATE)",
    Py.funcDef "train"
      [ Py.stmt "train_loss = []",
        Py.forLoop "for epoch in range(NUM_EPOCHS)"
          [ Py.stmt "start = time.time()",
            Py.stmt "running_loss = 0.0",
            Py.forLoop "for data in trainloader"
              [ Py.stmt "img, _ = data",
                Py.stmt "img = img.to(device)",
                Py.stmt "optimizer.zero_grad()",
                Py.stmt "outputs = net(img)",
                Py.stmt "loss = criterion(outputs, img)",
                Py.stmt "loss.backward()",
                Py.stmt "optimizer.step()",
                Py.stmt "running_loss += loss.item()" ],
            Py.stmt "loss = running_loss / len(trainloader)",
            Py.stmt "train_loss.append(loss)",
            Py.stmt "end = time.time()",
            Py.stmt "total_time = end - start",
            Py.stmt "print epoch, ETA, train loss",
            Py.ifStmt "epoch % 5 == 0"
              [ Py.stmt "save_decoded_image(img.cpu().data, original)",
                Py.stmt "save_decoded_image(outputs.cpu().data, decoded)" ] [] ],
        Py.stmt "return train_loss" ],
    Py.funcDef "test_image_reconstruction"
      [ Py.forLoop "for batch in testloader"
          [ Py.stmt "img, _ = batch",
            Py.stmt "img = img.to(device)",
            Py.stmt "outputs = net(img)",
            Py.stmt "outputs = outputs.view(outputs.size(0), 3, 32, 32).cpu().data",
            Py.stmt "save_image(outputs, conv_cifar10_reconstruction.png)",
            Py.breakStmt ] ],
    Py.stmt "model.to(device)",
    Py.stmt "make_dir()",
    Py.stmt "train_loss = train(model, trainLoader, NUM_EPOCHS)",
    Py.stmt "plt.figure()",
    Py.stmt "plt.plot(train_loss)",
    Py.stmt "plt.title(Train Loss)",
    Py.stmt "plt.xlabel(Epochs)",
    Py.stmt "plt.ylabel(Loss)",
    Py.stmt "plt.savefig(conv_ae_cifar10_loss.png)",
    Py.stmt "test_image_reconstruction(model, testLoader)",
    Py.stmt "import matplotlib.image as mpimg",
    Py.stmt "plt.figure(figsize (10, 20))",
    Py.stmt "img = mpimg.imread(conv_cifar10_reconstruction.png)",
    Py.stmt "plt.imshow(img)",
    Py.stmt "plt.show()" ]

def sklearnProgram : List Py :=
  [ Py.stmt "import matplotlib.pyplot as plt",
    Py.stmt "import numpy as np",
    Py.stmt "import pandas as pd",
    Py.stmt "import sklearn",
    Py.stmt "print(Using Scikit-Learn version ...)",
    Py.stmt "import pandas as pd (again)",
    Py.stmt "heart_disease = pd.read_csv(url of heart-disease.csv)",
    Py.stmt "heart_disease.head()",
    Py.stmt "X = heart_disease.drop(target, axis 1)",
    Py.stmt "y = heart_disease[target]",
    Py.stmt "X.head()",
    Py.stmt "y.head(), y.value_counts()",
    Py.stmt "from sklearn.model_selection import train_test_split",
    Py.stmt "X_train, X_test, y_train, y_test = train_test_split(X, y, test_size 0.25)",
    Py.stmt "X_train.shape, X_test.shape, y_train.shape, y_test.shape",
    Py.stmt "from sklearn.ensemble import RandomForestClassifier",
    Py.stmt "clf = RandomForestClassifier()",
    Py.stmt "clf.get_params()",
    Py.stmt "clf.fit(X X_train, y y_train)",
    Py.stmt "X_test.head()",
    Py.stmt "y_preds = clf.predict(X X_test)",
    Py.stmt "y_preds",
    Py.stmt "train_acc = clf.score(X X_train, y y_train)",
    Py.stmt "print train accuracy",
    Py.stmt "test_acc = clf.score(X X_test, y y_test)",
    Py.stmt "print test accuracy",
    Py.stmt "from sklearn.metrics import classification_report, confusion_matrix, accuracy_score",
    Py.stmt "print(classification_report(y_test, y_preds))",
    Py.stmt "conf_mat = confusion_matrix(y_test, y_preds)",
    Py.stmt "conf_mat",
    Py.stmt "accuracy_score(y_test, y_preds)",
    Py.stmt "np.random.seed(42)",
    Py.forLoop "for i in range(100, 200, 10)"
      [ Py.stmt "print trying model with i estimators",
        Py.stmt "model = RandomForestClassifier(n_estimators i).fit(X_train, y_train)",
        Py.stmt "print model accuracy on test set",
        Py.stmt "print blank line" ],
    Py.stmt "from sklearn.model_selection import cross_val_score",
    Py.stmt "np.random.seed(42) before cross-validation loop",
    Py.forLoop "for i in range(100, 200, 10) with cross-validation"
      [ Py.stmt "print trying model with i estimators (cv)",
        Py.stmt "model = RandomForestClassifier(n_estimators i).fit(X_train, y_train) (cv)",
        Py.stmt "model_score = model.score(X_test, y_test)",
        Py.stmt "print model accuracy on single test set split",
        Py.stmt "cross_val_mean = np.mean(cross_val_score(model, X, y, cv 5))",
        Py.stmt "print 5-fold cross-validation score",
        Py.stmt "print blank line (cv)" ],
    Py.stmt "np.random.seed(42) before grid search",
    Py.stmt "from sklearn.model_selection import GridSearchCV",
    Py.stmt "param_grid = dict of n_estimators and max_features ranges",
    Py.stmt "grid = GridSearchCV(RandomForestClassifier(), param_grid, cv 5, verbose 1)",
    Py.stmt "grid.fit(X, y)",
    Py.stmt "print best parameter values",
    Py.stmt "print best score",
    Py.stmt "clf = grid.best_estimator_",
    Py.stmt "clf",
    Py.stmt "clf = clf.fit(X_train, y_train)",
    Py.stmt "print best model score on single split",
    Py.stmt "import pickle",
    Py.stmt "pickle.dump(grid, open(random_forest_model_1_grid.pkl, wb))",
    Py.stmt "loaded_pickle_model = pickle.load(open(random_forest_model_1_grid.pkl, rb))",
    Py.stmt "print loaded pickle model prediction score" ]

/-! ## Helper lemmas -/

/-- The fold inside `trainEpoch` computes the final parameters and adds
the per-batch losses to the accumulator. -/
theorem foldl_run {Net B : Type} (step : Net → B → Net × ℚ) :
    ∀ (loader : List B) (net : Net) (q : ℚ),
      loader.foldl (fun acc b => let r := step acc.1 b; (r.1, acc.2 + r.2)) (net, q)
        = (netAfterEpoch step loader net, q + (batchLosses step loader net).sum) := by
  intro loader
  induction loader with
  | nil => intro net q; simp [netAfterEpoch, batchLosses]
  | cons b rest ih =>
      intro net q
      simp only [List.foldl_cons, netAfterEpoch, batchLosses, List.sum_cons, ih, add_assoc]

/-- One epoch over a non-empty loader: the updated parameters and the
average of the per-batch losses. -/
theorem trainEpoch_eq {Net B : Type} (step : Net → B → Net × ℚ) (net : Net)
    (loader : List B) (h : loader ≠ []) :
    trainEpoch step net loader
      = some (netAfterEpoch step loader net,
          (batchLosses step loader net).sum / (loader.length : ℚ)) := by
  unfold trainEpoch
  rw [if_neg (by simp [List.isEmpty_iff]; exact h)]
  simp [foldl_run]

/-- `train` over a non-empty loader: `n` epochs run, the parameters are
the `n`-fold epoch update, and the loss list holds, for each epoch `i`,
the sum of that epoch's per-batch losses divided by the number of
batches. -/
theorem train_run {Net B : Type} (step : Net → B → Net × ℚ) (loader : List B)
    (h : loader ≠ []) :
    ∀ (n : Nat) (net : Net),
      train step net loader n
        = some ((netAfterEpoch step loader)^[n] net,
            (List.range n).map fun i =>
              (batchLosses step loader ((netAfterEpoch step loader)^[i] net)).sum
                / (loader.length : ℚ)) := by
  intro n
  induction n with
  | zero => intro net; simp [train]
  | succ k ih =>
      intro net
      rw [train, trainEpoch_eq step net loader h]
      simp only [ih]
      simp [List.range_succ_eq_map, List.map_map, Function.comp,
        Function.iterate_succ_apply]

mutual

/-- In a handler-free statement, a top-level error is exactly the error
some library call raised. -/
theorem execPy_error (f : String → Except String Unit) (o : Oracle) (p : Py)
    (hf : handlerFree p = true) (e : String) (he : execPy f o p = Except.error e) :
    ∃ d, f d = Except.error e := by
  cases p with
  | stmt d =>
      refine ⟨d, ?_⟩
      rw [execPy] at he
      cases h : f d with
      | ok u => rw [h] at he; exact absurd he (by simp)
      | error e2 => rw [h] at he; simp at he; exact congrArg Except.error he
  | forLoop d body =>
      rw [execPy] at he
      exact execLoop_error f o body (o.iters d) (by simpa [handlerFree] using hf) e he
  | whileLoop d body =>
      rw [execPy] at he
      exact execLoop_error f o body (o.iters d) (by simpa [handlerFree] using hf) e he
  | ifStmt c t el =>
      rw [execPy] at he
      have hte := (by simpa [handlerFree] using hf :
        handlerFreeList t = true ∧ handlerFreeList el = true)
      by_cases hb : o.takeBranch c
      · rw [if_pos hb] at he
        exact execSeq_error f o t hte.1 e he
      · rw [if_neg hb] at he
        exact execSeq_error f o el hte.2 e he
  | funcDef n body => rw [execPy] at he; exact absurd he (by simp)
  | classDef n body => rw [execPy] at he; exact absurd he (by simp)
  | tryStmt body handlers => simp [handlerFree] at hf
  | breakStmt => rw [execPy] at he; exact absurd he (by simp)
termination_by (sizeOf p, 0)

/-- In a handler-free statement sequence, a top-level error is exactly
the error some library call raised. -/
theorem execSeq_error (f : String → Except String Unit) (o : Oracle) (l : List Py)
    (hf : handlerFreeList l = true) (e : String) (he : execSeq f o l = Except.error e) :
    ∃ d, f d = Except.error e := by
  cases l with
  | nil => rw [execSeq] at he; exact absurd he (by simp)
  | cons p ps =>
      have hf2 := (by simpa [handlerFreeList] using hf :
        handlerFree p = true ∧ handlerFreeList ps = true)
      rw [execSeq] at he
      cases h : execPy f o p with
      | ok s =>
          cases s with
          | norm => rw [h] at he; exact execSeq_error f o ps hf2.2 e he
          | brk => rw [h] at he; exact absurd he (by simp)
      | error e2 =>
          rw [h] at he; simp at he
          exact execPy_error f o p hf2.1 e (he ▸ h)
termination_by (sizeOf l, 0)

/-- In a handler-free loop, a top-level error is exactly the error some
library call raised. -/
theorem execLoop_error (f : String → Except String Unit) (o : Oracle) (body : List Py)
    (n : Nat) (hf : handlerFreeList body = true) (e : String)
    (he : execLoop f o body n = Except.error e) :
    ∃ d, f d = Except.error e := by
  induction n with
  | zero => rw [execLoop] at he; exact absurd he (by simp)
  | succ k ih =>
      rw [execLoop] at he
      cases h : execSeq f o body with
      | ok s =>
          cases s with
          | norm => rw [h] at he; exact ih he
          | brk => rw [h] at he; exact absurd he (by simp)
      | error e2 =>
          rw [h] at he; simp at he
          exact execSeq_error f o body hf e (he ▸ h)
termination_by (sizeOf body, n + 1)

end

/-! ## The claims -/

/-- C1: the RAG notebook performs its stages in the fixed order
load PDF, split text, embed chunks and insert them, embed the query,
similarity search, concatenate retrieved text, format the prompt, call
the hosted LLM — and no statement (hence no stage) reads a value
produced by a later statement. -/
theorem rag_stage_order :
    allStages ragCells =
      ["loadPdf", "splitText", "embedChunks", "insertChunks", "embedQuery",
       "similaritySearch", "concatRetrieved", "formatPrompt", "callLLM"]
    ∧ noForwardReads [] ragCells = true := by
  exact ⟨rfl, rfl⟩

/-- C2 (amended): the RAG notebook does not read `HF_TOKEN` from the
environment — its first cell assigns the empty string to it, so for
every starting environment the token visible to the inference client is
the empty string; keys other than `HF_TOKEN` are unchanged. -/
theorem hf_token_assigned :
    (∀ env0, tokenSeenByClient env0 = some "")
    ∧ (∀ env0 k, k ≠ "HF_TOKEN" → setHfToken env0 k = env0 k) := by
  refine ⟨fun env0 => rfl, fun env0 k hk => ?_⟩
  simp [setHfToken, hk]

/-- C2 (counterexample): starting from an environment whose `HF_TOKEN`
is `"secret-token"`, the token the client sees is not the token that
was in the environment before the notebook started, refuting the claim
that they are equal for every run. -/
theorem hf_token_read_counterexample :
    tokenSeenByClient envWithSecret ≠ envWithSecret "HF_TOKEN" := by
  decide

/-- C3 (amended): the autoencoder network has exactly two convolution
layers followed by exactly two transposed-convolution layers, `forward`
applies enc1, enc2, dec1, dec2 in order with ReLU after each, and
`NUM_EPOCHS = 10`; `train` iterates exactly `NUM_EPOCHS` times for
every non-empty loader (for an empty loader it raises
`ZeroDivisionError` at `running_loss / len(trainloader)` in the first
epoch, so no loss list is produced). -/
theorem autoencoder_structure_and_epochs :
    NUM_EPOCHS = 10
    ∧ autoEncoderLayerSpecs.map LayerSpec.kind =
        [ConvKind.conv2d, ConvKind.conv2d, ConvKind.convTranspose2d, ConvKind.convTranspose2d]
    ∧ (∀ (T : Type) (relu : T → T) (m : AutoEncoder T) (x : T),
        m.forward relu x =
          List.foldl (fun a g => relu (g a)) x [m.enc1, m.enc2, m.dec1, m.dec2])
    ∧ (∀ (Net B : Type) (step : Net → B → Net × ℚ) (net : Net) (loader : List B),
        loader ≠ [] →
          ∃ r, train step net loader NUM_EPOCHS = some r ∧ r.2.length = NUM_EPOCHS) := by
  refine ⟨rfl, rfl, fun T relu m x => rfl, fun Net B step net loader h => ?_⟩
  refine ⟨_, train_run step loader h NUM_EPOCHS net, ?_⟩
  simp

/-- C3 (counterexample): with an empty loader, `train` aborts in the
first epoch (`running_loss / len(trainloader)` raises
`ZeroDivisionError`), so it does not iterate `NUM_EPOCHS` times
regardless of the data. -/
theorem train_empty_loader_counterexample :
    train stepW 0 ([] : List ℚ) NUM_EPOCHS = none := by
  rfl

/-- C4: the record with index `i` in the chunk list gets id `i` (the
ids are exactly `0..n-1`, pairwise distinct); the collection is freshly
created before the single insert (for any prior state its contents
after the run are exactly the inserted records), the notebook issues
exactly one insert, and the only operation after it is the search. -/
theorem rag_ids_and_single_insert :
    ∀ (E : Type) (emb : String → E) (text_lines : List String) (existed : Bool) (q : E)
      (s0 : Option (List (RagRecord E))),
      ((ragData emb text_lines).map RagRecord.id = List.range text_lines.length)
      ∧ ((ragData emb text_lines).map RagRecord.id).Nodup
      ∧ ((ragMilvusOps existed (ragData emb text_lines) q).foldl milvusStep s0
          = some (ragData emb text_lines))
      ∧ ((ragMilvusOps existed (ragData emb text_lines) q).countP
          (fun o => MilvusOp.isInsert o) = 1)
      ∧ (opsAfterInsert (ragMilvusOps existed (ragData emb text_lines) q)
          = [MilvusOp.search q 3]) := by
  intro E emb text_lines existed q s0
  have hids : (ragData emb text_lines).map RagRecord.id = List.range text_lines.length := by
    simp [ragData, List.map_map, Function.comp]
    exact List.enum_map_fst text_lines
  refine ⟨hids, by rw [hids]; exact List.nodup_range _, ?_, ?_, ?_⟩
  · cases existed <;> simp [ragMilvusOps, milvusStep]
  · cases existed <;> simp [ragMilvusOps, List.countP_cons, MilvusOp.isInsert]
  · cases existed <;> simp [ragMilvusOps, opsAfterInsert, MilvusOp.isInsert]

/-- C5: exactly one call in the three notebooks passes a `timeout`
argument — the `InferenceClient` constructor of the RAG notebook, with
the fixed value 120 — and no call site is a cancellation primitive. -/
theorem single_timeout :
    allCallSites.filter (fun c => c.timeoutArg.isSome)
        = [⟨"rag", "InferenceClient", some 120⟩]
    ∧ allCallSites.all (fun c => !(cancelPrimitives.contains c.callee)) = true := by
  exact ⟨rfl, rfl⟩

/-- C6: no statement of any notebook is a `try`/`except` (and none is a
`while` loop, so no retry loop); consequently, whenever a run of a
notebook ends in an error, that error is exactly what some underlying
library call raised — it propagates unchanged to the top level. -/
theorem no_exception_handling :
    handlerFreeList ragProgram = true
    ∧ handlerFreeList autoencoderProgram = true
    ∧ handlerFreeList sklearnProgram = true
    ∧ whileFreeList ragProgram = true
    ∧ whileFreeList autoencoderProgram = true
    ∧ whileFreeList sklearnProgram = true
    ∧ (∀ f o e, execSeq f o ragProgram = Except.error e → ∃ d, f d = Except.error e)
    ∧ (∀ f o e, execSeq f o autoencoderProgram = Except.error e → ∃ d, f d = Except.error e)
    ∧ (∀ f o e, execSeq f o sklearnProgram = Except.error e → ∃ d, f d = Except.error e) := by
  refine ⟨rfl, rfl, rfl, rfl, rfl, rfl, ?_, ?_, ?_⟩
  · exact fun f o e he => execSeq_error f o ragProgram rfl e he
  · exact fun f o e he => execSeq_error f o autoencoderProgram rfl e he
  · exact fun f o e he => execSeq_error f o sklearnProgram rfl e he

/-- C7: the scikit-learn notebook performs its stages in the fixed
order load data, split, instantiate, fit, predict, score, grid search,
pickle — and no statement reads a value produced by a later
statement. -/
theorem sklearn_stage_order :
    allStages sklearnCells =
      ["loadData", "splitData", "instantiateClassifier", "fitClassifier",
       "predictTest", "scoreTest", "gridSearch", "pickleModel"]
    ∧ noForwardReads [] sklearnCells = true := by
  exact ⟨rfl, rfl⟩

/-- C8: the dump and load cells use the same path
`random_forest_model_1_grid.pkl`; assuming the pickle round-trip law
`dec (enc m) = m`, the loaded object is the original grid-search object
and its score on the held-out test split equals the original object's
score there. -/
theorem pickle_roundtrip_score (Model Bytes X Y : Type) (enc : Model → Bytes)
    (dec : Bytes → Model) (score : Model → X → Y → ℚ) (grid : Model)
    (disk : String → Option Bytes) (X_test : X) (y_test : Y)
    (h : ∀ m, dec (enc m) = m) :
    dumpPath = loadPath
    ∧ loadedPickleModel dec (diskAfterDump enc grid disk) = some grid
    ∧ (loadedPickleModel dec (diskAfterDump enc grid disk)).map
        (fun m => score m X_test y_test) = some (score grid X_test y_test) := by
  refine ⟨rfl, ?_, ?_⟩ <;> simp [loadedPickleModel, diskAfterDump, dumpPath, loadPath, h]

/-- C8 (witness): the round trip evaluated with identity coding on
`Nat`, the object 7 and the score function that reports the object. -/
theorem pickle_roundtrip_score_witness :
    dumpPath = loadPath
    ∧ loadedPickleModel (fun b : Nat => b) (diskAfterDump (fun m : Nat => m) 7 (fun _ => none))
        = some 7
    ∧ (loadedPickleModel (fun b : Nat => b)
          (diskAfterDump (fun m : Nat => m) 7 (fun _ => none))).map
        (fun m => (fun m (_ : Unit) (_ : Unit) => (m : ℚ)) m () ())
        = some ((fun m (_ : Unit) (_ : Unit) => (m : ℚ)) 7 () ()) :=
  pickle_roundtrip_score Nat Nat Unit Unit (fun m => m) (fun b => b)
    (fun m _ _ => (m : ℚ)) 7 (fun _ => none) () () (fun _ => rfl)

/-- C9: for a non-empty loader, `train` returns a loss list with
exactly `n` entries, and the entry of epoch `i` is the sum of the
per-batch losses of that epoch (computed with the parameters as they
stand at that epoch) divided by the number of batches. -/
theorem train_loss_entries {Net B : Type} (step : Net → B → Net × ℚ) (net : Net)
    (loader : List B) (n : Nat) (h : loader ≠ []) :
    train step net loader n
      = some ((netAfterEpoch step loader)^[n] net,
          (List.range n).map fun i =>
            (batchLosses step loader ((netAfterEpoch step loader)^[i] net)).sum
              / (loader.length : ℚ))
    ∧ ∀ r, train step net loader n = some r → r.2.length = n := by
  refine ⟨train_run step loader h n net, fun r hr => ?_⟩
  rw [train_run step loader h n net] at hr
  cases hr
  simp

/-- C9 (witness): the loss list of two epochs over the loader `[2, 3]`
with the concrete step `stepW`, starting from parameters 1. -/
theorem train_loss_entries_witness :
    train stepW 1 [2, 3] 2
      = some ((netAfterEpoch stepW [2, 3])^[2] 1,
          (List.range 2).map fun i =>
            (batchLosses stepW [2, 3] ((netAfterEpoch stepW [2, 3])^[i] 1)).sum
              / (([2, 3] : List ℚ).length : ℚ))
    ∧ ∀ r, train stepW 1 [2, 3] 2 = some r → r.2.length = 2 :=
  train_loss_entries stepW 1 [2, 3] 2 (by decide)

/-- C10: `test_image_reconstruction` runs the network on exactly the
first batch of the loader and writes exactly one file, named
`conv_cifar10_reconstruction.png`; on an empty loader it runs on
nothing and writes nothing. -/
theorem test_reconstruction_first_batch :
    ∀ (Img : Type) (toDevice net postprocess : Img → Img) (testloader : List Img),
      (test_image_reconstruction toDevice net postprocess testloader).1
          = (testloader.take 1).map toDevice
      ∧ (test_image_reconstruction toDevice net postprocess testloader).2.map Prod.fst
          = (if testloader.isEmpty then [] else ["conv_cifar10_reconstruction.png"]) := by
  intro Img toDevice net postprocess testloader
  cases testloader <;> simp [test_image_reconstruction]

end KidaML
